import Mathlib

/-
Verification of the natural-language specification of the random_motif_search
repository (gibbs_sampler.py) against a shallow embedding of its code.

Modelling conventions:
  * Python strings (DNA sequences, motifs, consensus strings) are `List Char`.
  * Python floats (profile cells, k-mer probabilities) are `Rat`; all the
    arithmetic the claims touch is exact, so rationals are a faithful model.
  * Python integers that only count upward are `Nat`; `random.randint` bounds
    are `Int` because the source computes `len(seq) - k`, which can be negative.
  * The ambient `random` generator is an explicit stream (`RNG`): a list of
    natural seeds (consumed by `random.randint`) and a list of rationals in
    [0, 1) (consumed by `random.choices`).  Theorems about "every state of the
    random stream" quantify over the stream.
  * Fallible Python operations (IndexError on out-of-range subscripts,
    ValueError from `randint` on an empty range, NameError on a variable that
    was never bound) are modelled with `Except PyErr`.
-/

namespace Gibbs

/-- Python runtime errors that gibbs_sampler.py can raise on the inputs the
claims are about. -/
inductive PyErr where
  | valueError
  | indexError
  | nameError
deriving DecidableEq

/-- A dynamically-typed Python value, needed only where the source compares
values of different types: `build_profile_matrix` calls `column.count(j)` with
an integer `j` on a list of one-character strings. -/
inductive PyVal where
  | int : Int → PyVal
  | str : List Char → PyVal

/-- Python `==` between possibly differently-typed values: an int never equals
a str. -/
def pyEq : PyVal → PyVal → Bool
  | .int m, .int n => m == n
  | .str s, .str t => s == t
  | _, _ => false

/-- Python `list.count(x)`: the number of elements `==` to `x`. -/
def pyCount (l : List PyVal) (x : PyVal) : Nat :=
  l.countP (fun y => pyEq y x)

/-- The `i`-th column of a motif set: `[motif[i] for motif in motifs]`
(src line 78) and the inner counting loops of `score_motif` (src 110-118) and
`consensus` (src 139-147).  Out-of-range positions yield the placeholder 'N',
which never occurs while the equal-length well-formedness the claims assume
holds. -/
def column (motifs : List (List Char)) (i : Nat) : List Char :=
  motifs.map (fun m => m.getD i 'N')

/-- `counts[0]` at column `i`: occurrences of 'A' (src 110-111, 139-141). -/
def countA (motifs : List (List Char)) (i : Nat) : Nat :=
  (column motifs i).count 'A'

/-- `counts[1]` at column `i`: occurrences of 'C'. -/
def countC (motifs : List (List Char)) (i : Nat) : Nat :=
  (column motifs i).count 'C'

/-- `counts[2]` at column `i`: occurrences of 'G'. -/
def countG (motifs : List (List Char)) (i : Nat) : Nat :=
  (column motifs i).count 'G'

/-- `counts[3]` at column `i`: occurrences of 'T'. -/
def countT (motifs : List (List Char)) (i : Nat) : Nat :=
  (column motifs i).count 'T'

/-- `max_count = max(counts)` (src 119, 148); Python folds `max` left to
right over the four counts. -/
def max_count (motifs : List (List Char)) (i : Nat) : Nat :=
  max (max (max (countA motifs i) (countC motifs i)) (countG motifs i)) (countT motifs i)

/-- The character `score_motif` appends to its consensus accumulator at column
`i`: the first-matching branch of the `if max_count == counts[0] ... elif`
chain (src 120-127).  The chain always matches because `max_count` equals one
of the four counts; the final arm is therefore reached exactly when the first
three tests fail, in which case `max_count == counts[3]`. -/
def score_col_char (motif : List (List Char)) (i : Nat) : Char :=
  if max_count motif i = countA motif i then 'A'
  else if max_count motif i = countC motif i then 'C'
  else if max_count motif i = countG motif i then 'G'
  else 'T'

/-- The mismatch count `score_motif` accumulates at column `i`: every motif
whose symbol differs from `consensus[i]` — the character just appended — adds
one (src 128-130). -/
def score_col_mismatch (motif : List (List Char)) (i : Nat) : Nat :=
  (column motif i).countP (fun ch => ch != score_col_char motif i)

/-- The per-column loop of `score_motif` (src 108-130), carrying the
`(consensus, score)` pair of accumulators. -/
def score_motif_loop (motif : List (List Char)) : List Char × Nat :=
  (List.range (motif.headD []).length).foldl
    (fun acc i => (acc.1 ++ [score_col_char motif i], acc.2 + score_col_mismatch motif i))
    ([], 0)

/-- `score_motif` (src 104-131): returns the accumulated score. -/
def score_motif (motif : List (List Char)) : Nat :=
  (score_motif_loop motif).2

/-- The consensus string `score_motif` builds internally and discards
(src 106, 120-127). -/
def score_motif_consensus (motif : List (List Char)) : List Char :=
  (score_motif_loop motif).1

/-- The character `consensus` appends at column `i` (src 148-156); the same
first-matching-branch chain as in `score_motif`. -/
def consensus_col_char (motifs : List (List Char)) (i : Nat) : Char :=
  if max_count motifs i = countA motifs i then 'A'
  else if max_count motifs i = countC motifs i then 'C'
  else if max_count motifs i = countG motifs i then 'G'
  else 'T'

/-- `consensus` (src 134-158): one appended character per column, so the
accumulated string is the column-wise map. -/
def consensus (motifs : List (List Char)) : List Char :=
  (List.range (motifs.headD []).length).map (consensus_col_char motifs)

/-- `build_profile_matrix` (src 74-81).  `column` there is a list of
one-character strings, while `column.count(j)` is called with the integer
`j` in `range(4)`; the heterogeneous comparison is modelled through `PyVal`.
The Python code indexes `motifs[0]` (IndexError on an empty set); callers in
this file guard that case explicitly. -/
def build_profile_matrix (motifs : List (List Char)) : List (List Rat) :=
  (List.range (motifs.headD []).length).map (fun i =>
    (List.range 4).map (fun j =>
      ((pyCount (motifs.map (fun m => PyVal.str [m.getD i 'N'])) (PyVal.int j) : Rat) + 1)
        / ((motifs.length : Rat) + 4)))

/-- One step of the inner probability product of
`profile_randomly_generated_kmer` (src 90-98): multiply by the profile cell of
the k-mer's symbol at position `j`; symbols outside {A,C,G,T} leave the
product unchanged, exactly as the `if/elif` chain with no `else` does. -/
def kmer_step (profile : List (List Rat)) (kmer : List Char) (prob : Rat) (j : Nat) : Rat :=
  if kmer.getD j 'N' = 'A' then prob * ((profile.getD j []).getD 0 0)
  else if kmer.getD j 'N' = 'C' then prob * ((profile.getD j []).getD 1 0)
  else if kmer.getD j 'N' = 'G' then prob * ((profile.getD j []).getD 2 0)
  else if kmer.getD j 'N' = 'T' then prob * ((profile.getD j []).getD 3 0)
  else prob

/-- The raw weight list of `profile_randomly_generated_kmer` (src 86-99):
one product per candidate start offset. -/
def kmer_probabilities (seq : List Char) (k : Nat) (profile : List (List Rat)) : List Rat :=
  (List.range (seq.length - k + 1)).map (fun i =>
    (List.range k).foldl (kmer_step profile ((seq.drop i).take k)) 1)

/-- `bisect.bisect_right` over the running cumulative sums of `weights`, the
search used inside `random.choices`: the first index whose cumulative weight
strictly exceeds `x`. -/
def bisectIdx : List Rat → Rat → Nat
  | [], _ => 0
  | w :: ws, x => if x < w then 0 else bisectIdx ws (x - w) + 1

/-- `random.choices(range(len(weights)), weights=weights)[0]` given the draw
`r` from [0, 1): CPython computes `bisect(cum_weights, r * total, 0, hi)` with
`hi = len(weights) - 1`, which clamps the unbounded bisection at `hi`. -/
def choicesIdx (weights : List Rat) (r : Rat) : Nat :=
  min (bisectIdx weights (r * weights.sum)) (weights.length - 1)

/-- `profile_randomly_generated_kmer` (src 83-102), with the `random.choices`
draw `r` passed explicitly.  The source normalizes the weights by their sum
before drawing; Python would raise ZeroDivisionError if the sum were zero, a
case no claim exercises (in this repository every weight is strictly
positive), and rational division by zero yields 0 here. -/
def profile_randomly_generated_kmer (seq : List Char) (k : Nat) (profile : List (List Rat))
    (r : Rat) : List Char :=
  let probabilities := kmer_probabilities seq k profile
  let normalized := probabilities.map (fun p => p / probabilities.sum)
  let i := choicesIdx normalized r
  (seq.drop i).take k

/-- The explicit random stream threaded through the sampler: seeds for
`random.randint` and draws in [0, 1) for `random.choices`. -/
structure RNG where
  nats : List Nat
  reals : List Rat
deriving DecidableEq

/-- Consume one `randint` seed. -/
def takeNat (g : RNG) : Nat × RNG :=
  (g.nats.headD 0, ⟨g.nats.tail, g.reals⟩)

/-- Consume one `choices` draw. -/
def takeReal (g : RNG) : Rat × RNG :=
  (g.reals.headD 0, ⟨g.nats, g.reals.tail⟩)

/-- `random.randint(lo, hi)` driven by the seed `v`: uniform over
`[lo, hi]`; raises ValueError when the range is empty (`hi < lo`), exactly
the failure `random.randint(0, len(seq) - k)` hits when a sequence is shorter
than `k`. -/
def randint (lo hi : Int) (v : Nat) : Except PyErr Int :=
  if hi < lo then .error .valueError
  else .ok (lo + (v : Int) % (hi - lo + 1))

/-- Python `pat in`-style prefix replacement, fuel-structured so it computes
by kernel reduction: `s.replace(pat, rep)` scans left to right, replacing
non-overlapping occurrences and jumping over each match.  `fuel` is
initialized to `s.length`, which bounds the number of recursion steps. -/
def replaceAllAux : Nat → List Char → List Char → List Char → List Char
  | 0, s, _, _ => s
  | fuel + 1, s, pat, rep =>
    match s with
    | [] => []
    | c :: s' =>
      if !pat.isEmpty && pat.isPrefixOf s then
        rep ++ replaceAllAux fuel (s.drop pat.length) pat rep
      else
        c :: replaceAllAux fuel s' pat rep

/-- Python `str.replace` for a non-empty pattern (every motif the source
highlights has length `k ≥ 1`). -/
def replaceAll (s pat rep : List Char) : List Char :=
  replaceAllAux s.length s pat rep

/-- The ANSI escape `"\x1b[31m"` (src 67). -/
def redANSI : List Char := ['\x1b', '[', '3', '1', 'm']

/-- The ANSI escape `"\x1b[0m"` (src 67). -/
def resetANSI : List Char := ['\x1b', '[', '0', 'm']

/-- The loop state of one `gibbs_sampler` run: the working motif set, the
tracked best set, the two report variables that Python only binds inside the
iteration loop (hence `Option`: `none` models "never assigned", whose use
raises NameError), and the remaining random stream. -/
structure GState where
  motifs : List (List Char)
  best : List (List Char)
  gibbs_motifs : Option (List (List Char))
  consensus_motif : Option (List Char)
  rng : RNG
deriving DecidableEq

/-- The body of the initialization loop of `gibbs_sampler` (src 40-43),
processing the remaining sequences given the motifs accumulated so far and
the remaining random stream. -/
def init_motifs_aux (k : Nat) :
    List (List Char) → List (List Char) × RNG → Except PyErr (List (List Char) × RNG)
  | [], a => .ok a
  | seq :: rest, a =>
    match randint 0 ((seq.length : Int) - (k : Int)) (takeNat a.2).1 with
    | .error e => .error e
    | .ok i => init_motifs_aux k rest (a.1 ++ [(seq.drop i.toNat).take k], (takeNat a.2).2)

/-- The initialization loop of `gibbs_sampler` (src 40-43): one uniformly
random start offset per sequence; `random.randint(0, len(seq) - k)` raises
ValueError as soon as a sequence is shorter than `k`. -/
def init_motifs (dna : List (List Char)) (k : Nat) (g : RNG) :
    Except PyErr (List (List Char) × RNG) :=
  init_motifs_aux k dna ([], g)

/-- The report-rendering loop (src 65-68): each original sequence with its
best motif wrapped in ANSI color codes via `str.replace`; `dna[i]` raises
IndexError if the best set is longer than the corpus. -/
def render (dna : List (List Char)) (best : List (List Char)) :
    Except PyErr (List (List Char)) :=
  (List.range best.length).foldlM (fun acc i =>
    match dna[i]? with
    | none => .error .indexError
    | some seq =>
      .ok (acc ++ [replaceAll seq (best.getD i []) (redANSI ++ best.getD i [] ++ resetANSI)]))
    []

/-- Python `list.insert(i, a)` (src 58): insert before position `i`,
clamping at the end. -/
def pyInsert (l : List (List Char)) (i : Nat) (a : List Char) : List (List Char) :=
  l.take i ++ a :: l.drop i

/-- One iteration of the sampling loop of `gibbs_sampler` (src 47-70):
pick a random index `i` (IndexError at `motifs[i]`/`motifs.pop(i)` if out of
range), evict motif `i`, build the profile from the remaining motifs
(`build_profile_matrix` indexes `motifs[0]`, an IndexError when the remainder
is empty), resample sequence `i`'s motif from the profile, reinsert it,
replace the best set when the new score is strictly lower, and recompute the
report variables from the updated best set. -/
def gibbs_step (dna : List (List Char)) (k t : Nat) (s : GState) : Except PyErr GState :=
  match randint 0 ((t : Int) - 1) (takeNat s.rng).1 with
  | .error e => .error e
  | .ok iz =>
    let g1 := (takeNat s.rng).2
    let i := iz.toNat
    if i < s.motifs.length then
      let motifs' := s.motifs.eraseIdx i
      if motifs' = [] then .error .indexError
      else
        match dna[i]? with
        | none => .error .indexError
        | some seq =>
          let profile := build_profile_matrix motifs'
          let motif_i := profile_randomly_generated_kmer seq k profile (takeReal g1).1
          let motifs2 := pyInsert motifs' i motif_i
          let best2 := if score_motif motifs2 < score_motif s.best then motifs2 else s.best
          match render dna best2 with
          | .error e => .error e
          | .ok gm => .ok ⟨motifs2, best2, some gm, some (consensus best2), (takeReal g1).2⟩
    else .error .indexError

/-- The `for _ in range(N)` loop of `gibbs_sampler` (src 47). -/
def gibbs_loop (dna : List (List Char)) (k t : Nat) : Nat → GState → Except PyErr GState
  | 0, s => .ok s
  | n + 1, s =>
    match gibbs_step dna k t s with
    | .error e => .error e
    | .ok s' => gibbs_loop dna k t n s'

/-- `gibbs_sampler` (src 38-72).  The return statement evaluates left to
right: `score_motif(best_motifs)` indexes `motif[0]` (IndexError when the
best set is empty) before the names `gibbs_motifs` and `consensus_motif` are
read, which raises NameError when the loop body never ran. -/
def gibbs_sampler (dna : List (List Char)) (k t N : Nat) (g : RNG) :
    Except PyErr (List (List Char) × Nat × List (List Char) × List Char) :=
  match init_motifs dna k g with
  | .error e => .error e
  | .ok (motifs, g1) =>
    match gibbs_loop dna k t N ⟨motifs, motifs, none, none, g1⟩ with
    | .error e => .error e
    | .ok s =>
      if s.best = [] then .error .indexError
      else
        match s.gibbs_motifs, s.consensus_motif with
        | some gm, some cm => .ok (s.best, score_motif s.best, gm, cm)
        | _, _ => .error .nameError

/-- The tuple one `gibbs_sampler` call hands back to `RepeatGibbsMotSearch`
(src 210).  `RepeatGibbsMotSearch` only consumes these tuples, so its
orchestration is modelled as a function of the per-run results. -/
structure RunResult where
  motif : List (List Char)
  score : Nat
  gibbs_motifs : List (List Char)
  consensus : List Char

/-- `RepeatGibbsMotSearch` (src 196-226), abstracted over the results the
`n_times` runs of each outer iteration return; the value is the list of
`(score, rendered motifs, consensus)` blocks written to the report file.
Faithful to the source: `score_lst` is the module-level list that accumulates
across every outer iteration and is never reset (src 194, 212), whereas
`all_gibs_motifs_lst` and `consensus_lst` are fresh per outer iteration; the
sorted `data` (src 217-218) is computed and then never read; the block writes
`score_lst[0]`, `consensus_lst[0]` and `all_gibs_motifs_lst[0]`
(src 221-225).  The `[0]` subscripts presuppose a non-empty first batch, as
every claim here does. -/
def RepeatGibbsMotSearch (batches : List (List RunResult)) :
    List (Nat × List (List Char) × List Char) :=
  (batches.foldl
    (fun (acc : List Nat × List (Nat × List (List Char) × List Char)) batch =>
      let score_lst := acc.1 ++ batch.map RunResult.score
      let all_gibs_motifs_lst := batch.map RunResult.gibbs_motifs
      let consensus_lst := batch.map RunResult.consensus
      (score_lst,
        acc.2 ++ [(score_lst.headD 0, all_gibs_motifs_lst.headD [], consensus_lst.headD [])]))
    ([], [])).2

/-! ## Helper lemmas -/

/-- The pair-accumulating column loop of `score_motif`, computed in closed
form: the consensus accumulator is the column-wise map, the score accumulator
is the sum of per-column mismatch counts. -/
theorem score_pair_fold (m : List (List Char)) :
    ∀ (l : List Nat) (cs : List Char) (n : Nat),
      l.foldl (fun acc i => (acc.1 ++ [score_col_char m i], acc.2 + score_col_mismatch m i))
          (cs, n)
        = (cs ++ l.map (score_col_char m), n + (l.map (score_col_mismatch m)).sum) := by
  intro l
  induction l with
  | nil => intro cs n; simp
  | cons x xs ih =>
    intro cs n
    rw [List.foldl_cons, ih]
    simp [List.append_assoc]
    omega

theorem score_motif_eq_sum (m : List (List Char)) :
    score_motif m = ((List.range (m.headD []).length).map (score_col_mismatch m)).sum := by
  unfold score_motif score_motif_loop
  rw [score_pair_fold]
  simp

theorem score_motif_consensus_eq_map (m : List (List Char)) :
    score_motif_consensus m = (List.range (m.headD []).length).map (score_col_char m) := by
  unfold score_motif_consensus score_motif_loop
  rw [score_pair_fold]
  simp

theorem headD_mem {l : List (List Char)} (h : l ≠ []) : l.headD [] ∈ l := by
  cases l with
  | nil => exact absurd rfl h
  | cons a t => simp

/-- Counting in a constant list. -/
theorem count_of_forall_eq {x y : Char} {l : List Char} (h : ∀ c ∈ l, c = x) :
    l.count y = if y = x then l.length else 0 := by
  by_cases hxy : y = x
  · subst hxy
    rw [if_pos rfl]
    exact List.count_eq_length.mpr (fun b hb => (h b hb).symm)
  · rw [if_neg hxy]
    exact List.count_eq_zero.mpr (fun hy => hxy (h y hy))

/-- When a column is constant with symbol `x` in {A,C,G,T} and the motif set
is non-empty, the first-matching branch of the majority chain picks `x`. -/
theorem score_col_char_const {motifs : List (List Char)} {i : Nat} {x : Char}
    (hne : motifs ≠ []) (hall : ∀ ch ∈ column motifs i, ch = x)
    (hx : x = 'A' ∨ x = 'C' ∨ x = 'G' ∨ x = 'T') :
    score_col_char motifs i = x := by
  have hlen : (column motifs i).length = motifs.length := by simp [column]
  have hpos : 0 < motifs.length := List.length_pos.mpr hne
  have hA : countA motifs i = if 'A' = x then motifs.length else 0 := by
    rw [countA, count_of_forall_eq hall, hlen]
  have hC : countC motifs i = if 'C' = x then motifs.length else 0 := by
    rw [countC, count_of_forall_eq hall, hlen]
  have hG : countG motifs i = if 'G' = x then motifs.length else 0 := by
    rw [countG, count_of_forall_eq hall, hlen]
  have hT : countT motifs i = if 'T' = x then motifs.length else 0 := by
    rw [countT, count_of_forall_eq hall, hlen]
  have hne0 : motifs.length ≠ 0 := by omega
  rcases hx with rfl | rfl | rfl | rfl
  · have h1 : countA motifs i = motifs.length := by rw [hA, if_pos rfl]
    have h2 : countC motifs i = 0 := by rw [hC, if_neg (by decide)]
    have h3 : countG motifs i = 0 := by rw [hG, if_neg (by decide)]
    have h4 : countT motifs i = 0 := by rw [hT, if_neg (by decide)]
    rw [score_col_char, max_count, h1, h2, h3, h4]
    simp [hne0]
  · have h1 : countA motifs i = 0 := by rw [hA, if_neg (by decide)]
    have h2 : countC motifs i = motifs.length := by rw [hC, if_pos rfl]
    have h3 : countG motifs i = 0 := by rw [hG, if_neg (by decide)]
    have h4 : countT motifs i = 0 := by rw [hT, if_neg (by decide)]
    rw [score_col_char, max_count, h1, h2, h3, h4]
    simp [hne0]
  · have h1 : countA motifs i = 0 := by rw [hA, if_neg (by decide)]
    have h2 : countC motifs i = 0 := by rw [hC, if_neg (by decide)]
    have h3 : countG motifs i = motifs.length := by rw [hG, if_pos rfl]
    have h4 : countT motifs i = 0 := by rw [hT, if_neg (by decide)]
    rw [score_col_char, max_count, h1, h2, h3, h4]
    simp [hne0]
  · have h1 : countA motifs i = 0 := by rw [hA, if_neg (by decide)]
    have h2 : countC motifs i = 0 := by rw [hC, if_neg (by decide)]
    have h3 : countG motifs i = 0 := by rw [hG, if_neg (by decide)]
    have h4 : countT motifs i = motifs.length := by rw [hT, if_pos rfl]
    rw [score_col_char, max_count, h1, h2, h3, h4]
    simp [hne0]

theorem score_zero_iff_cols (m : List (List Char)) :
    score_motif m = 0 ↔ ∀ i < (m.headD []).length, score_col_mismatch m i = 0 := by
  rw [score_motif_eq_sum, List.sum_eq_zero_iff]
  simp

theorem mismatch_zero_iff (m : List (List Char)) (i : Nat) :
    score_col_mismatch m i = 0 ↔ ∀ ch ∈ column m i, ch = score_col_char m i := by
  rw [score_col_mismatch, List.countP_eq_zero]
  simp

theorem consensus_getD (motifs : List (List Char)) (i : Nat)
    (hi : i < (motifs.headD []).length) :
    (consensus motifs).getD i 'N' = consensus_col_char motifs i := by
  unfold consensus
  rw [List.getD_eq_getElem _ _ (by simpa using hi)]
  rw [List.getElem_map]
  simp

/-- One gibbs_step that returns `ok` either kept the previous best set or
replaced it by the strictly better current set. -/
theorem gibbs_step_ok (dna : List (List Char)) (k t : Nat) (s s' : GState)
    (h : gibbs_step dna k t s = .ok s') :
    score_motif s'.best ≤ score_motif s.best ∧
    (score_motif s'.motifs < score_motif s.best → s'.best = s'.motifs) ∧
    (¬ score_motif s'.motifs < score_motif s.best → s'.best = s.best) := by
  unfold gibbs_step at h
  split at h
  · exact absurd h (by simp)
  · dsimp only [] at h
    split at h
    · split at h
      · exact absurd h (by simp)
      · split at h
        · exact absurd h (by simp)
        · split at h
          · exact absurd h (by simp)
          · rw [Except.ok.injEq] at h
            subst h
            dsimp only []
            split_ifs with hc
            · exact ⟨le_of_lt hc, fun _ => rfl, fun hn => absurd hc hn⟩
            · exact ⟨le_refl _, fun hlt => absurd hlt hc, fun _ => rfl⟩
    · exact absurd h (by simp)

theorem gibbs_loop_best_mono (dna : List (List Char)) (k t : Nat) :
    ∀ (N : Nat) (s s' : GState),
      gibbs_loop dna k t N s = .ok s' → score_motif s'.best ≤ score_motif s.best := by
  intro N
  induction N with
  | zero =>
    intro s s' h
    rw [gibbs_loop, Except.ok.injEq] at h
    rw [h]
  | succ n ih =>
    intro s s' h
    rw [gibbs_loop] at h
    split at h
    · exact absurd h (by simp)
    · exact le_trans (ih _ s' h) (gibbs_step_ok dna k t s _ (by assumption)).1

/-- When some sequence is shorter than `k`, the initialization loop always
raises ValueError (from `random.randint` on an empty range). -/
theorem init_short (k : Nat) :
    ∀ (dna : List (List Char)) (a : List (List Char) × RNG),
      (∃ s ∈ dna, s.length < k) → init_motifs_aux k dna a = .error .valueError := by
  intro dna
  induction dna with
  | nil => simp
  | cons seq rest ih =>
    intro a h
    by_cases hshort : seq.length < k
    · rw [init_motifs_aux]
      have hr : randint 0 ((seq.length : Int) - (k : Int)) (takeNat a.2).1
          = .error .valueError := by
        rw [randint, if_pos (by omega)]
      rw [hr]
    · have h' : ∃ s ∈ rest, s.length < k := by
        rcases h with ⟨s, hs, hl⟩
        rcases List.mem_cons.mp hs with rfl | hm
        · exact absurd hl hshort
        · exact ⟨s, hm, hl⟩
      rw [init_motifs_aux]
      have hr : randint 0 ((seq.length : Int) - (k : Int)) (takeNat a.2).1
          = .ok (0 + ((takeNat a.2).1 : Int) % ((seq.length : Int) - (k : Int) - 0 + 1)) := by
        rw [randint, if_neg (by omega)]
      rw [hr]
      exact ih _ h'

/-- Each step of the k-mer probability product keeps the product strictly
positive when every profile cell is. -/
theorem kmer_step_pos {profile : List (List Rat)} {kmer : List Char}
    (hrow : ∀ row ∈ profile, row.length = 4)
    (hpos : ∀ row ∈ profile, ∀ x ∈ row, 0 < x)
    {a : Rat} (ha : 0 < a) {j : Nat} (hj : j < profile.length) :
    0 < kmer_step profile kmer a j := by
  have hrmem : profile.getD j [] ∈ profile := by
    rw [List.getD_eq_getElem _ _ hj]
    exact List.getElem_mem hj
  have hlen4 : (profile.getD j []).length = 4 := hrow _ hrmem
  have hcell : ∀ idx, idx < 4 → 0 < (profile.getD j []).getD idx 0 := by
    intro idx hidx
    rw [List.getD_eq_getElem _ _ (by rw [hlen4]; exact hidx)]
    exact hpos _ hrmem _ (List.getElem_mem _)
  unfold kmer_step
  split_ifs <;> first
    | exact mul_pos ha (hcell _ (by norm_num))
    | exact ha

theorem foldl_kmer_step_pos {profile : List (List Rat)} {kmer : List Char}
    (hrow : ∀ row ∈ profile, row.length = 4)
    (hpos : ∀ row ∈ profile, ∀ x ∈ row, 0 < x) :
    ∀ (l : List Nat) (a : Rat), 0 < a → (∀ j ∈ l, j < profile.length) →
      0 < l.foldl (kmer_step profile kmer) a := by
  intro l
  induction l with
  | nil => intro a ha _; simpa using ha
  | cons x xs ih =>
    intro a ha hj
    rw [List.foldl_cons]
    exact ih _ (kmer_step_pos hrow hpos ha (hj x (by simp))) (fun j hjm => hj j (by simp [hjm]))

/-! ## Claim theorems -/

/-- C10: the consensus string that score_motif accumulates internally is the
string the standalone consensus function returns on the same motif list; the
two column-majority computations are equivalent. -/
theorem score_motif_consensus_eq_consensus (motifs : List (List Char)) :
    score_motif_consensus motifs = consensus motifs := by
  rw [score_motif_consensus_eq_map]
  rfl

/-- C1 (code bug): on an outer iteration whose two runs score 5 and then 3,
RepeatGibbsMotSearch writes the first run's (score, rendering, consensus)
triple, which is not the batch's lowest-scoring triple; the sorted data the
source computes is never read, and the written score comes from the global
score list. -/
theorem RepeatGibbsMotSearch_reports_first_run :
    RepeatGibbsMotSearch
        [[⟨[['G']], 5, [['G', 'G']], ['G']⟩, ⟨[['T']], 3, [['T', 'T']], ['T']⟩]]
      = [(5, [['G', 'G']], ['G'])] ∧
    ((5 : Nat), [['G', 'G']], (['G'] : List Char))
      ≠ ((3 : Nat), [['T', 'T']], (['T'] : List Char)) ∧
    (3 : Nat) < 5 :=
  ⟨rfl, by decide, by decide⟩

/-- C2 (code bug): `column.count(j)` counts the integer `j` in a list of
one-character strings and is always 0, so on the motif set ["AA", "AA"]
every profile cell is 1/6 instead of the specified (count+1)/6, each row sums
to 2/3 rather than 1, and the 'A' cell differs from the specified
(2+1)/(2+4). -/
theorem build_profile_matrix_uniform_bug :
    build_profile_matrix [['A', 'A'], ['A', 'A']]
      = [[1/6, 1/6, 1/6, 1/6], [1/6, 1/6, 1/6, 1/6]] ∧
    (build_profile_matrix [['A', 'A'], ['A', 'A']]).map List.sum = [2/3, 2/3] ∧
    ((2 : Rat) / 3) ≠ 1 ∧ ((1 : Rat) / 6) ≠ ((2 + 1) / (2 + 4) : Rat) :=
  ⟨by with_unfolding_all rfl, by with_unfolding_all rfl, by norm_num, by norm_num⟩

/-- C3 counterexample: on the motif set ["AACC", "CCAA"] the code computes
consensus "AAAA" and score 4, so the claimed consensus "AACC" with score 2
does not hold. -/
theorem scenario4_counterexample :
    ¬ (consensus [['A', 'A', 'C', 'C'], ['C', 'C', 'A', 'A']] = ['A', 'A', 'C', 'C'] ∧
       score_motif [['A', 'A', 'C', 'C'], ['C', 'C', 'A', 'A']] = 2) := by
  decide

/-- C3 amended: every column of ["AACC", "CCAA"] is a 1-1 tie between A and
C, each tie resolves to 'A' by the A-first priority order, so the consensus
is "AAAA" and the score is 4 (one mismatching motif per column). -/
theorem scenario4_amended :
    consensus [['A', 'A', 'C', 'C'], ['C', 'C', 'A', 'A']] = ['A', 'A', 'A', 'A'] ∧
    score_motif [['A', 'A', 'C', 'C'], ['C', 'C', 'A', 'A']] = 4 := by
  decide

/-- C4 (code bug): with N = 0 the sampling loop body never runs, the report
variables gibbs_motifs and consensus_motif are never bound, and
gibbs_sampler fails with NameError instead of returning the initial
MotifSet. -/
theorem gibbs_sampler_N_zero_nameError :
    gibbs_sampler [['A', 'A']] 1 1 0 ⟨[0], [0]⟩ = .error .nameError := rfl

/-- C5: within one run the tracked best set's score never increases: a
successful iteration replaces the best set exactly when the new motif set
scores strictly lower, keeps it unchanged otherwise, and over any number of
iterations the best score is monotonically non-increasing. -/
theorem gibbs_best_monotone :
    (∀ (dna : List (List Char)) (k t : Nat) (s s' : GState),
      gibbs_step dna k t s = .ok s' →
        score_motif s'.best ≤ score_motif s.best ∧
        (score_motif s'.motifs < score_motif s.best → s'.best = s'.motifs) ∧
        (¬ score_motif s'.motifs < score_motif s.best → s'.best = s.best)) ∧
    (∀ (dna : List (List Char)) (k t N : Nat) (s s' : GState),
      gibbs_loop dna k t N s = .ok s' → score_motif s'.best ≤ score_motif s.best) :=
  ⟨fun dna k t s s' h => gibbs_step_ok dna k t s s' h,
   fun dna k t N s s' h => gibbs_loop_best_mono dna k t N s s' h⟩

/-- C5 witness: one concrete successful step on the corpus ["A", "C"] with
k = 1, t = 2. -/
theorem gibbs_best_monotone_witness :
    score_motif (GState.best ⟨[['A'], ['C']], [['A'], ['C']],
        some [['\x1b', '[', '3', '1', 'm', 'A', '\x1b', '[', '0', 'm'],
              ['\x1b', '[', '3', '1', 'm', 'C', '\x1b', '[', '0', 'm']],
        some ['A'], ⟨[], []⟩⟩)
      ≤ score_motif (GState.best ⟨[['A'], ['C']], [['A'], ['C']], none, none, ⟨[0], [0]⟩⟩) :=
  (gibbs_best_monotone.1 [['A'], ['C']] 1 2
    ⟨[['A'], ['C']], [['A'], ['C']], none, none, ⟨[0], [0]⟩⟩
    ⟨[['A'], ['C']], [['A'], ['C']],
      some [['\x1b', '[', '3', '1', 'm', 'A', '\x1b', '[', '0', 'm'],
            ['\x1b', '[', '3', '1', 'm', 'C', '\x1b', '[', '0', 'm']],
      some ['A'], ⟨[], []⟩⟩ (by with_unfolding_all rfl)).1

/-- C6 counterexample: a well-formed input — non-empty corpus ["CC"], every
sequence at least as long as k = 1 — still makes gibbs_sampler fail (NameError,
because N = 0), so failing on an empty corpus or a too-short sequence is not
the only externally visible failure mode. -/
theorem gibbs_error_beyond_precondition :
    gibbs_sampler [['C', 'C']] 1 1 0 ⟨[0], [0]⟩ = .error .nameError ∧
    ([['C', 'C']] : List (List Char)) ≠ [] ∧
    (∀ s ∈ ([['C', 'C']] : List (List Char)), ¬ s.length < 1) :=
  ⟨rfl, by decide, by decide⟩

/-- C6 amended: a sequence shorter than k makes the initialization phase —
and hence the whole run — fail with ValueError before any sampling
iteration, for every random stream; an empty corpus with t ≥ 1 and N ≥ 1
fails with IndexError during the first sampling iteration (not before it);
the companion counterexample shows these are not the only failure modes. -/
theorem gibbs_precondition_errors :
    (∀ (dna : List (List Char)) (k t N : Nat) (g : RNG), (∃ s ∈ dna, s.length < k) →
      init_motifs dna k g = .error .valueError ∧
      gibbs_sampler dna k t N g = .error .valueError) ∧
    (∀ (k t N : Nat) (g : RNG), 1 ≤ t → 1 ≤ N →
      gibbs_sampler ([] : List (List Char)) k t N g = .error .indexError) := by
  constructor
  · intro dna k t N g h
    have hinit : init_motifs dna k g = .error .valueError := init_short k dna ([], g) h
    refine ⟨hinit, ?_⟩
    unfold gibbs_sampler
    rw [hinit]
  · intro k t N g ht hN
    obtain ⟨n, rfl⟩ : ∃ n, N = n + 1 := ⟨N - 1, by omega⟩
    have hstep : ∀ s : GState, s.motifs = [] → gibbs_step [] k t s = .error .indexError := by
      intro s hs
      unfold gibbs_step
      have hr : randint 0 ((t : Int) - 1) (takeNat s.rng).1
          = .ok (0 + ((takeNat s.rng).1 : Int) % ((t : Int) - 1 - 0 + 1)) := by
        rw [randint, if_neg (by omega)]
      rw [hr]
      dsimp only []
      rw [hs, if_neg (by simp)]
    have hloop : gibbs_loop [] k t (n + 1) ⟨[], [], none, none, g⟩ = .error .indexError := by
      rw [gibbs_loop, hstep ⟨[], [], none, none, g⟩ rfl]
    unfold gibbs_sampler
    have hinit : init_motifs ([] : List (List Char)) k g = .ok ([], g) := rfl
    rw [hinit]
    dsimp only []
    rw [hloop]

/-- C6 witness: the amended theorem applied at the corpus ["A"] with k = 2
(short sequence) and at the empty corpus with t = N = 1. -/
theorem gibbs_precondition_errors_witness :
    (init_motifs [['A']] 2 ⟨[0], [0]⟩ = .error .valueError ∧
      gibbs_sampler [['A']] 2 1 1 ⟨[0], [0]⟩ = .error .valueError) ∧
    gibbs_sampler ([] : List (List Char)) 3 1 1 ⟨[0], [0]⟩ = .error .indexError :=
  ⟨gibbs_precondition_errors.1 [['A']] 2 1 1 ⟨[0], [0]⟩ ⟨['A'], by decide, by decide⟩,
   gibbs_precondition_errors.2 3 1 1 ⟨[0], [0]⟩ (by decide) (by decide)⟩

/-- C7: at every in-range column the consensus symbol attains the maximal
count, and ties resolve to the first symbol in the order A, C, G, T; in
particular counts {A:2, C:2, G:0, T:0} yield 'A'. -/
theorem consensus_tie_break (motifs : List (List Char)) (i : Nat)
    (hi : i < (motifs.headD []).length) :
    (column motifs i).count ((consensus motifs).getD i 'N') = max_count motifs i ∧
    (max_count motifs i = countA motifs i → (consensus motifs).getD i 'N' = 'A') ∧
    (max_count motifs i ≠ countA motifs i → max_count motifs i = countC motifs i →
      (consensus motifs).getD i 'N' = 'C') ∧
    (max_count motifs i ≠ countA motifs i → max_count motifs i ≠ countC motifs i →
      max_count motifs i = countG motifs i → (consensus motifs).getD i 'N' = 'G') ∧
    (max_count motifs i ≠ countA motifs i → max_count motifs i ≠ countC motifs i →
      max_count motifs i ≠ countG motifs i → (consensus motifs).getD i 'N' = 'T') ∧
    consensus [['A'], ['A'], ['C'], ['C']] = ['A'] := by
  rw [consensus_getD motifs i hi]
  unfold consensus_col_char
  split_ifs with h1 h2 h3
  · exact ⟨h1.symm, fun _ => rfl, fun hn _ => absurd h1 hn, fun hn _ _ => absurd h1 hn,
      fun hn _ _ => absurd h1 hn, by decide⟩
  · exact ⟨h2.symm, fun he => absurd he h1, fun _ _ => rfl, fun _ hn _ => absurd h2 hn,
      fun _ hn _ => absurd h2 hn, by decide⟩
  · exact ⟨h3.symm, fun he => absurd he h1, fun _ he => absurd he h2, fun _ _ _ => rfl,
      fun _ _ hn => absurd h3 hn, by decide⟩
  · have h4 : max_count motifs i = countT motifs i := by
      rcases max_choice (max (max (countA motifs i) (countC motifs i)) (countG motifs i))
          (countT motifs i) with h | h
      · rcases max_choice (max (countA motifs i) (countC motifs i)) (countG motifs i)
            with h' | h'
        · rcases max_choice (countA motifs i) (countC motifs i) with h'' | h''
          · exact absurd (by rw [max_count, h, h', h'']) h1
          · exact absurd (by rw [max_count, h, h', h'']) h2
        · exact absurd (by rw [max_count, h, h']) h3
      · rw [max_count, h]
    exact ⟨h4.symm, fun he => absurd he h1, fun _ he => absurd he h2,
      fun _ _ he => absurd he h3, fun _ _ _ => rfl, by decide⟩

/-- C7 witness: the tie-break theorem at the motif set with column counts
{A:2, C:2, G:0, T:0}. -/
theorem consensus_tie_break_witness :
    (column [['A'], ['A'], ['C'], ['C']] 0).count
        ((consensus [['A'], ['A'], ['C'], ['C']]).getD 0 'N')
      = max_count [['A'], ['A'], ['C'], ['C']] 0 ∧
    (max_count [['A'], ['A'], ['C'], ['C']] 0 = countA [['A'], ['A'], ['C'], ['C']] 0 →
      (consensus [['A'], ['A'], ['C'], ['C']]).getD 0 'N' = 'A') ∧
    (max_count [['A'], ['A'], ['C'], ['C']] 0 ≠ countA [['A'], ['A'], ['C'], ['C']] 0 →
      max_count [['A'], ['A'], ['C'], ['C']] 0 = countC [['A'], ['A'], ['C'], ['C']] 0 →
      (consensus [['A'], ['A'], ['C'], ['C']]).getD 0 'N' = 'C') ∧
    (max_count [['A'], ['A'], ['C'], ['C']] 0 ≠ countA [['A'], ['A'], ['C'], ['C']] 0 →
      max_count [['A'], ['A'], ['C'], ['C']] 0 ≠ countC [['A'], ['A'], ['C'], ['C']] 0 →
      max_count [['A'], ['A'], ['C'], ['C']] 0 = countG [['A'], ['A'], ['C'], ['C']] 0 →
      (consensus [['A'], ['A'], ['C'], ['C']]).getD 0 'N' = 'G') ∧
    (max_count [['A'], ['A'], ['C'], ['C']] 0 ≠ countA [['A'], ['A'], ['C'], ['C']] 0 →
      max_count [['A'], ['A'], ['C'], ['C']] 0 ≠ countC [['A'], ['A'], ['C'], ['C']] 0 →
      max_count [['A'], ['A'], ['C'], ['C']] 0 ≠ countG [['A'], ['A'], ['C'], ['C']] 0 →
      (consensus [['A'], ['A'], ['C'], ['C']]).getD 0 'N' = 'T') ∧
    consensus [['A'], ['A'], ['C'], ['C']] = ['A'] :=
  consensus_tie_break [['A'], ['A'], ['C'], ['C']] 0 (by decide)

/-- C8: for a non-empty, equal-length motif set over {A, C, G, T} the score
is a non-negative integer that is zero exactly when all the motifs are
character-for-character identical; the all-"AAAA" set has score 0 and
consensus "AAAA". -/
theorem score_motif_zero_iff (motifs : List (List Char))
    (hne : motifs ≠ [])
    (hlen : ∀ m ∈ motifs, m.length = (motifs.headD []).length)
    (halpha : ∀ m ∈ motifs, ∀ c ∈ m, c = 'A' ∨ c = 'C' ∨ c = 'G' ∨ c = 'T') :
    0 ≤ score_motif motifs ∧
    (score_motif motifs = 0 ↔ ∀ m ∈ motifs, m = motifs.headD []) ∧
    score_motif [['A', 'A', 'A', 'A'], ['A', 'A', 'A', 'A'], ['A', 'A', 'A', 'A']] = 0 ∧
    consensus [['A', 'A', 'A', 'A'], ['A', 'A', 'A', 'A'], ['A', 'A', 'A', 'A']]
      = ['A', 'A', 'A', 'A'] := by
  refine ⟨Nat.zero_le _, ?_, by decide, by decide⟩
  rw [score_zero_iff_cols]
  constructor
  · intro h m hm
    have hmlen : m.length = (motifs.headD []).length := hlen m hm
    have hhead : motifs.headD [] ∈ motifs := headD_mem hne
    refine List.ext_getElem hmlen ?_
    intro i h1 h2
    have hi : i < (motifs.headD []).length := by rw [← hmlen]; exact h1
    have hcol := (mismatch_zero_iff motifs i).mp (h i hi)
    have e1 : m.getD i 'N' = score_col_char motifs i :=
      hcol _ (by unfold column; exact List.mem_map.mpr ⟨m, hm, rfl⟩)
    have e2 : (motifs.headD []).getD i 'N' = score_col_char motifs i :=
      hcol _ (by unfold column; exact List.mem_map.mpr ⟨_, hhead, rfl⟩)
    calc m[i] = m.getD i 'N' := (List.getD_eq_getElem m 'N' h1).symm
      _ = (motifs.headD []).getD i 'N' := by rw [e1, e2]
      _ = (motifs.headD [])[i] := List.getD_eq_getElem _ 'N' h2
  · intro h i hi
    have hhead : motifs.headD [] ∈ motifs := headD_mem hne
    have hall : ∀ ch ∈ column motifs i, ch = (motifs.headD []).getD i 'N' := by
      intro ch hch
      unfold column at hch
      rcases List.mem_map.mp hch with ⟨m, hm, he⟩
      subst he
      rw [h m hm]
    have hx4 : (motifs.headD []).getD i 'N' = 'A' ∨ (motifs.headD []).getD i 'N' = 'C' ∨
        (motifs.headD []).getD i 'N' = 'G' ∨ (motifs.headD []).getD i 'N' = 'T' := by
      rw [List.getD_eq_getElem _ _ hi]
      exact halpha _ hhead _ (List.getElem_mem hi)
    rw [mismatch_zero_iff, score_col_char_const hne hall hx4]
    exact hall

/-- C8 witness: the characterization applied to the motif set
["AC", "AC"]. -/
theorem score_motif_zero_iff_witness :
    0 ≤ score_motif [['A', 'C'], ['A', 'C']] ∧
    (score_motif [['A', 'C'], ['A', 'C']] = 0 ↔
      ∀ m ∈ [['A', 'C'], ['A', 'C']], m = [['A', 'C'], ['A', 'C']].headD []) ∧
    score_motif [['A', 'A', 'A', 'A'], ['A', 'A', 'A', 'A'], ['A', 'A', 'A', 'A']] = 0 ∧
    consensus [['A', 'A', 'A', 'A'], ['A', 'A', 'A', 'A'], ['A', 'A', 'A', 'A']]
      = ['A', 'A', 'A', 'A'] :=
  score_motif_zero_iff [['A', 'C'], ['A', 'C']] (by decide) (by decide) (by decide)

/-- C9: when k equals the sequence length and the profile has strictly
positive cells (k rows of 4), there is exactly one candidate offset and the
sampler deterministically returns the whole sequence for every draw in
[0, 1). -/
theorem kmer_sampler_full_length (seq : List Char) (k : Nat) (profile : List (List Rat))
    (r : Rat)
    (hk : k = seq.length)
    (hklen : k ≤ profile.length)
    (hrow : ∀ row ∈ profile, row.length = 4)
    (hpos : ∀ row ∈ profile, ∀ x ∈ row, 0 < x)
    (hr0 : 0 ≤ r) (hr1 : r < 1) :
    (kmer_probabilities seq k profile).length = 1 ∧
    profile_randomly_generated_kmer seq k profile r = seq := by
  subst hk
  have hp : kmer_probabilities seq seq.length profile
      = [(List.range seq.length).foldl (kmer_step profile seq) 1] := by
    unfold kmer_probabilities
    have hn : seq.length - seq.length + 1 = 1 := by omega
    rw [hn]
    have h1 : List.range 1 = [0] := rfl
    rw [h1]
    simp [List.take_length]
  have hpp : 0 < (List.range seq.length).foldl (kmer_step profile seq) 1 :=
    foldl_kmer_step_pos hrow hpos _ 1 one_pos
      (fun j hj => lt_of_lt_of_le (List.mem_range.mp hj) hklen)
  refine ⟨by rw [hp]; rfl, ?_⟩
  unfold profile_randomly_generated_kmer
  rw [hp]
  dsimp only []
  have hnorm : ([(List.range seq.length).foldl (kmer_step profile seq) 1].map
        (fun p => p / ([(List.range seq.length).foldl (kmer_step profile seq) 1] : List Rat).sum))
      = [1] := by
    simp [div_self (ne_of_gt hpp)]
  rw [hnorm]
  have hchoice : choicesIdx [1] r = 0 := by
    have hb : bisectIdx [1] (r * ([1] : List Rat).sum) = 0 := by
      have hs : ([1] : List Rat).sum = 1 := by simp
      rw [hs, mul_one, bisectIdx, if_pos hr1]
    rw [choicesIdx, hb]
    simp
  rw [hchoice]
  simp [List.take_length]

/-- C9 witness: the single-offset theorem at seq = "A", k = 1, the uniform
1/6 profile row, and the draw 1/2. -/
theorem kmer_sampler_full_length_witness :
    (kmer_probabilities ['A'] 1 [[1/6, 1/6, 1/6, 1/6]]).length = 1 ∧
    profile_randomly_generated_kmer ['A'] 1 [[1/6, 1/6, 1/6, 1/6]] (1/2) = ['A'] :=
  kmer_sampler_full_length ['A'] 1 [[1/6, 1/6, 1/6, 1/6]] (1/2) rfl (by decide)
    (by decide) (by norm_num) (by norm_num) (by norm_num)

end Gibbs
